import Mathlib

/-!
Verification of the yukina agent core: the connection dispatcher
(`src/connection_manager.py`), the Twitter connection's config validation
(`src/connections/twitter_connection.py`), the agent constructor and the
main action-selection loop (`src/agent.py`).

Conventions of the shallow embedding:
* Python dicts are association lists (`List (String × PyVal)`); a key is
  "in" the dict iff `lookup` succeeds.
* Python exceptions are `Except` errors; a `try/except` block is a match
  on the `Except` result of the embedded body.
* Instants and the tweet interval are modelled as exact integer seconds
  (Python uses float seconds from `time.time()`; only order comparisons and
  subtraction are performed on them, which Int models exactly).
* `random.random()` draws and `self_reply_chance` are rationals; the code
  only compares them, never does arithmetic on them.
-/

namespace Yukina

/-- A Python runtime value, as far as the validated configs need: ints,
floats, strings, `None`, lists and string-keyed dicts. `isinstance(v, int)`
holds exactly for `pyInt`, `isinstance(v, float)` exactly for `pyFloat`. -/
inductive PyVal where
  | pyInt (n : Int)
  | pyFloat (q : ℚ)
  | pyStr (s : String)
  | pyNone
  | pyList (l : List PyVal)
  | pyDict (entries : List (String × PyVal))

/-- One declared parameter of a connection action
(`ActionParameter` in `base_connection.py`, as used by
`twitter_connection.py`; the type/description slots play no role in
dispatch and are omitted). -/
structure ActionParameter where
  name : String
  required : Bool
deriving DecidableEq

/-- A declared connection action (`Action`): a name plus its ordered
parameter declarations. -/
structure Action where
  name : String
  parameters : List ActionParameter
deriving DecidableEq

/-- A registered connection as the dispatcher sees it: a configuration
check that may itself raise (`Except.error`), an action table, and an
underlying action implementation that may raise. -/
structure Connection where
  is_configured : Except String Bool
  actions : List (String × Action)
  perform_action : String → List (String × PyVal) → Except String PyVal

/-- The classified reasons `ConnectionManager.perform_action` logs before
returning `None`. Unknown connection names raise `KeyError` inside the
`try`, landing in the generic handler (`caughtException`), as do errors
raised by `is_configured` or by the connection's own action. -/
inductive DispatchFailure where
  | notConfigured (connection_name : String)
  | unknownAction (connection_name action_name : String)
  | parameterCountMismatch (required_count : Nat) (required_names : List String)
  | caughtException (msg : String)

/-- The manager's `self.connections` dict. -/
abbrev Registry := List (String × Connection)

/-- `sum(1 for param in action.parameters if param.required)`. -/
def requiredCount (a : Action) : Nat := (a.parameters.filter (·.required)).length

/-- `[param.name for param in action.parameters if param.required]` —
the required parameter names in declaration order. -/
def requiredNames (a : Action) : List String := (a.parameters.filter (·.required)).map (·.name)

/-- The kwargs-building loop of `ConnectionManager.perform_action`: bind
the i-th positional value to the i-th required parameter's name, leaving
optional parameters unbound. (Only reached after the exact arity check,
so the positional list cannot run short there.) -/
def bindParams : List ActionParameter → List PyVal → List (String × PyVal)
  | [], _ => []
  | p :: ps, vs =>
    if p.required then
      match vs with
      | [] => []
      | v :: vs' => (p.name, v) :: bindParams ps vs'
    else
      bindParams ps vs

/-- The body of `ConnectionManager.perform_action` with its logged error
classification made explicit. Mirrors, in order: registry lookup
(`KeyError` → generic handler), `is_configured` check, action-name check,
exact arity check against the required-parameter count, kwargs binding,
and the underlying call (whose raised errors the final `except` catches). -/
def perform_action_classified (mgr : Registry) (connection_name action_name : String)
    (params : List PyVal) : Except DispatchFailure PyVal :=
  match mgr.lookup connection_name with
  | none => .error (.caughtException ("KeyError: " ++ connection_name))
  | some connection =>
    match connection.is_configured with
    | .error e => .error (.caughtException e)
    | .ok false => .error (.notConfigured connection_name)
    | .ok true =>
      match connection.actions.lookup action_name with
      | none => .error (.unknownAction connection_name action_name)
      | some action =>
        if params.length ≠ requiredCount action then
          .error (.parameterCountMismatch (requiredCount action) (requiredNames action))
        else
          match connection.perform_action action_name (bindParams action.parameters params) with
          | .error e => .error (.caughtException e)
          | .ok r => .ok r

/-- `ConnectionManager.perform_action`: the caller-facing result. Every
classified failure is logged and converted to `None`. -/
def ConnectionManager.perform_action (mgr : Registry) (connection_name action_name : String)
    (params : List PyVal) : Option PyVal :=
  match perform_action_classified mgr connection_name action_name params with
  | .ok r => some r
  | .error _ => none

/-- C6: For every dispatch call — any connection name (including
unregistered ones), any action name, any positional parameter list, and
any connection whose action implementation or `is_configured` raises —
`perform_action` either returns the connection's result or returns null
with a logged, classified reason; it never raises an exception to its
caller. -/
theorem perform_action_never_raises (mgr : Registry) (cn an : String) (params : List PyVal) :
    (∃ conn act r, mgr.lookup cn = some conn ∧ conn.is_configured = Except.ok true ∧
        conn.actions.lookup an = some act ∧
        conn.perform_action an (bindParams act.parameters params) = Except.ok r ∧
        ConnectionManager.perform_action mgr cn an params = some r) ∨
    (∃ f, perform_action_classified mgr cn an params = Except.error f ∧
        ConnectionManager.perform_action mgr cn an params = none) := by
  cases hc : perform_action_classified mgr cn an params with
  | error f =>
    right
    refine ⟨f, rfl, ?_⟩
    unfold ConnectionManager.perform_action
    rw [hc]
  | ok r =>
    left
    have hres : ConnectionManager.perform_action mgr cn an params = some r := by
      unfold ConnectionManager.perform_action
      rw [hc]
    unfold perform_action_classified at hc
    split at hc
    · exact absurd hc (by simp)
    next conn hconn =>
      split at hc
      · exact absurd hc (by simp)
      · exact absurd hc (by simp)
      next hcfg =>
        split at hc
        · exact absurd hc (by simp)
        next act hact =>
          split at hc
          · exact absurd hc (by simp)
          next hlen =>
            split at hc
            · exact absurd hc (by simp)
            next r' hcall =>
              injection hc with hr
              exact ⟨conn, act, r, hconn, hcfg, hact, hr ▸ hcall, hres⟩

/-- C7: For every registered, configured connection and every action
declaring `k` required parameters, a dispatch whose positional list does
not have exactly `k` elements is classified as a parameter-count mismatch
listing the required parameter names in declaration order, returns null,
and never invokes the connection's underlying action (the outcome is
identical for any two implementations `g`, `g'` of the action). -/
theorem perform_action_arity_mismatch (mgr mgr' : Registry) (cn an : String)
    (params : List PyVal) (acts : List (String × Action))
    (g g' : String → List (String × PyVal) → Except String PyVal) (act : Action)
    (h : mgr.lookup cn = some ⟨Except.ok true, acts, g⟩)
    (h' : mgr'.lookup cn = some ⟨Except.ok true, acts, g'⟩)
    (hact : acts.lookup an = some act)
    (hlen : params.length ≠ requiredCount act) :
    perform_action_classified mgr cn an params
      = Except.error (.parameterCountMismatch (requiredCount act) (requiredNames act)) ∧
    ConnectionManager.perform_action mgr cn an params = none ∧
    perform_action_classified mgr cn an params = perform_action_classified mgr' cn an params := by
  have e1 : perform_action_classified mgr cn an params
      = Except.error (.parameterCountMismatch (requiredCount act) (requiredNames act)) := by
    unfold perform_action_classified
    rw [h]
    simp only [hact, if_pos hlen]
  have e2 : perform_action_classified mgr' cn an params
      = Except.error (.parameterCountMismatch (requiredCount act) (requiredNames act)) := by
    unfold perform_action_classified
    rw [h']
    simp only [hact, if_pos hlen]
  refine ⟨e1, ?_, e1.trans e2.symm⟩
  unfold ConnectionManager.perform_action
  rw [e1]

/-- A connection exposing the `reply-to-tweet` action exactly as
`TwitterConnection.register_actions` declares it (two required
parameters, `tweet_id` then `message`), with an implementation that
records nothing. -/
def replyConn : Connection where
  is_configured := Except.ok true
  actions := [("reply-to-tweet",
    { name := "reply-to-tweet"
      parameters := [⟨"tweet_id", true⟩, ⟨"message", true⟩] })]
  perform_action := fun _ _ => Except.ok PyVal.pyNone

/-- Witness for C7: the two-required-parameter `reply-to-tweet` action,
called with a one-element positional list, yields the classified
mismatch naming `tweet_id, message`, returns null, and the outcome does
not depend on the underlying implementation. -/
theorem perform_action_arity_mismatch_witness :
    perform_action_classified [("twitter", replyConn)] "twitter" "reply-to-tweet"
        [PyVal.pyStr "hello"]
      = Except.error (.parameterCountMismatch 2 ["tweet_id", "message"]) ∧
    ConnectionManager.perform_action [("twitter", replyConn)] "twitter" "reply-to-tweet"
        [PyVal.pyStr "hello"] = none ∧
    perform_action_classified [("twitter", replyConn)] "twitter" "reply-to-tweet"
        [PyVal.pyStr "hello"]
      = perform_action_classified
          [("twitter", { replyConn with perform_action := fun _ _ => Except.error "boom" })]
          "twitter" "reply-to-tweet" [PyVal.pyStr "hello"] :=
  perform_action_arity_mismatch
    [("twitter", replyConn)]
    [("twitter", { replyConn with perform_action := fun _ _ => Except.error "boom" })]
    "twitter" "reply-to-tweet" [PyVal.pyStr "hello"]
    replyConn.actions (fun _ _ => Except.ok PyVal.pyNone) (fun _ _ => Except.error "boom")
    { name := "reply-to-tweet", parameters := [⟨"tweet_id", true⟩, ⟨"message", true⟩] }
    rfl rfl rfl (by decide)

/-! ## The agent main loop (`YukinaAgent.loop`, `src/agent.py` lines 120–227)

One iteration of the `while True` body is embedded as a function from the
loop-carried state and the iteration's external inputs (the oracle for
`random.choices`, `random.random()`, `time.time()`, and the dispatch
results) to the next state plus the ordered list of observable effects.
The `try/except` at the iteration boundary is the `logErrorSleep` effect:
a raised error is caught, logged, and followed by the full delay sleep.
A Python `continue` (`logSkipPost`, `logSkipSelfReply`, and the missing-id
skip) reaches the next iteration without the end-of-iteration sleep. -/

/-- A timeline item as the loop reads it: `tweet.get('id')`,
`tweet.get('author_username', '')`, `tweet.get('text', '')`. -/
structure Tweet where
  id : Option String
  author_username : Option String
  text : Option String
deriving DecidableEq

/-- The value of `self.state["timeline_tweets"]`: the key may be absent
(`missing`), may hold `None` (`null` — installed when the read-timeline
dispatch returned null), or may hold a list. -/
inductive TLBuf where
  | missing
  | null
  | tweets (l : List Tweet)
deriving DecidableEq

/-- The loop-carried mutable state: the timeline buffer and
`last_tweet_time` (initialised to 0 before the loop). -/
structure LoopState where
  timeline_tweets : TLBuf
  last_tweet_time : Int
deriving DecidableEq

/-- The agent attributes the loop reads: `self.tweet_interval`,
`self.self_reply_chance`, and `self.username` (stored already
lower-cased by `_setup_llm_provider`). -/
structure LoopCfg where
  tweet_interval : Int
  self_reply_chance : ℚ
  username : String

/-- The external inputs of one iteration: the read-timeline dispatch
result, the task name drawn by `random.choices`, `time.time()`, the LLM
dispatch result (null, or the generated string), the `random.random()`
draw, and the post-tweet dispatch result. The loop never reads
`post_dispatch_result`; it is recorded so that theorems can speak about
the dispatch outcome. -/
structure Iter where
  read_timeline_result : Option (List Tweet)
  chosen_action : String
  now : Int
  llm_result : Option String
  rand_draw : ℚ
  post_dispatch_result : Option PyVal

/-- The observable effects of one iteration, in execution order. -/
inductive Eff where
  | readTimeline
  | llmGenerate
  | dispatchPost (text : String)
  | dispatchReply (tweet_id text : String)
  | dispatchLike (tweet_id : String)
  | sleepDelay
  | logSkipPost
  | logSkipSelfReply
  | logErrorSleep
deriving DecidableEq

/-- Python `str.lower()` restricted to what the comparison needs. -/
def lowerString (s : String) : String := String.mk (s.data.map Char.toLower)

/-- Installing a read-timeline dispatch result into
`self.state["timeline_tweets"]`: a null result is stored as `None`. -/
def installBuf : Option (List Tweet) → TLBuf
  | none => .null
  | some l => .tweets l

/-- The action half of one loop iteration (`src/agent.py` lines 132–222),
run on the post-replenish state. `effs` is the effect prefix produced by
the replenish step. Branches mirror the source: the `post-tweet` interval
gate (`continue` on skip, so no end-of-iteration sleep), the
`reply-to-tweet` dequeue / missing-id `continue` / self-reply gate
(`random.random() > self_reply_chance` suppresses) / generation /
dispatch, the `like-tweet` dequeue and dispatch, and the end-of-iteration
sleep. `len(None)` in the buffer checks raises `TypeError`, caught at the
iteration boundary (`logErrorSleep`). `last_tweet_time` is assigned
directly after the post dispatch, whatever that dispatch returned. -/
def loopIterAct (a : LoopCfg) (st : LoopState) (it : Iter) (effs : List Eff) :
    LoopState × List Eff :=
  if it.chosen_action = "post-tweet" then
    if it.now - st.last_tweet_time ≥ a.tweet_interval then
      match it.llm_result with
      | some tweet_text =>
        if tweet_text = "" then (st, effs ++ [.llmGenerate, .sleepDelay])
        else ({ st with last_tweet_time := it.now },
              effs ++ [.llmGenerate, .dispatchPost tweet_text, .sleepDelay])
      | none => (st, effs ++ [.llmGenerate, .sleepDelay])
    else
      (st, effs ++ [.logSkipPost])
  else if it.chosen_action = "reply-to-tweet" then
    match st.timeline_tweets with
    | .null => (st, effs ++ [.logErrorSleep])
    | .missing => (st, effs ++ [.sleepDelay])
    | .tweets [] => (st, effs ++ [.sleepDelay])
    | .tweets (tweet :: rest) =>
      let st' := { st with timeline_tweets := TLBuf.tweets rest }
      match tweet.id with
      | none => (st', effs)
      | some tweet_id =>
        if tweet_id = "" then (st', effs)
        else
          if lowerString (tweet.author_username.getD "") = a.username
              ∧ it.rand_draw > a.self_reply_chance then
            (st', effs ++ [.logSkipSelfReply])
          else
            match it.llm_result with
            | some reply_text =>
              if reply_text = "" then (st', effs ++ [.llmGenerate, .sleepDelay])
              else (st', effs ++ [.llmGenerate, .dispatchReply tweet_id reply_text, .sleepDelay])
            | none => (st', effs ++ [.llmGenerate, .sleepDelay])
  else if it.chosen_action = "like-tweet" then
    match st.timeline_tweets with
    | .null => (st, effs ++ [.logErrorSleep])
    | .missing => (st, effs ++ [.sleepDelay])
    | .tweets [] => (st, effs ++ [.sleepDelay])
    | .tweets (tweet :: rest) =>
      let st' := { st with timeline_tweets := TLBuf.tweets rest }
      match tweet.id with
      | none => (st', effs)
      | some tweet_id =>
        if tweet_id = "" then (st', effs)
        else (st', effs ++ [.dispatchLike tweet_id, .sleepDelay])
  else
    (st, effs ++ [.sleepDelay])

/-- One full loop iteration: the replenish step (`src/agent.py` lines
122–130) followed by action selection and dispatch. The replenish
condition is `"timeline_tweets" not in self.state or
len(self.state["timeline_tweets"]) == 0`; when the stored value is
`None`, `len` raises `TypeError` before anything else happens, and the
iteration ends in the boundary handler. -/
def loopIter (a : LoopCfg) (st : LoopState) (it : Iter) : LoopState × List Eff :=
  match st.timeline_tweets with
  | .null => (st, [.logErrorSleep])
  | .missing =>
    loopIterAct a { st with timeline_tweets := installBuf it.read_timeline_result } it
      [.readTimeline]
  | .tweets l =>
    if l.isEmpty then
      loopIterAct a { st with timeline_tweets := installBuf it.read_timeline_result } it
        [.readTimeline]
    else
      loopIterAct a st it []

/-- With a non-empty buffer the replenish step is a no-op. -/
theorem loopIter_cons (a : LoopCfg) (st : LoopState) (it : Iter) (tw : Tweet)
    (rest : List Tweet) (h : st.timeline_tweets = TLBuf.tweets (tw :: rest)) :
    loopIter a st it = loopIterAct a st it [] := by
  unfold loopIter
  rw [h]
  simp

/-- Shared concrete loop configuration: `tweet_interval = 900`,
`self_reply_chance = 0.05`, username `yukina`. -/
def wCfg : LoopCfg :=
  { tweet_interval := 900, self_reply_chance := Rat.divInt 1 20, username := "yukina" }

/-- A concrete timeline item authored by the agent itself. -/
def wTweet : Tweet := { id := some "123", author_username := some "Yukina", text := some "gm" }

/-- A concrete timeline item with no `id`. -/
def wTweetNoId : Tweet := { id := none, author_username := some "bob", text := some "x" }

/-- C1 (counterexample): post selected at time 1000 with
`last_tweet_time = 0`, interval 900, non-empty LLM text, and a post
dispatch that returns null — yet `last_tweet_time` is set to 1000. The
claim says it stays unchanged when the dispatch returns null. -/
theorem last_tweet_time_null_dispatch_cex :
    (Iter.mk none "post-tweet" 1000 (some "hello") (Rat.divInt 0 1) none).post_dispatch_result
        = none ∧
    (loopIter wCfg ⟨TLBuf.tweets [wTweet], 0⟩
        (Iter.mk none "post-tweet" 1000 (some "hello") (Rat.divInt 0 1) none)).1.last_tweet_time
        = 1000 ∧
    (1000 : Int) ≠ 0 :=
  ⟨rfl, by decide, by decide⟩

/-- C1 (amended): whenever the post action is selected, the interval has
elapsed and the LLM text is non-empty, `last_tweet_time` is set to the
current time unconditionally — the post dispatch's return value is
ignored, so the update happens whether the dispatch returned null or
not. -/
theorem last_tweet_time_updated_regardless_of_dispatch (a : LoopCfg) (st : LoopState)
    (it : Iter) (tw : Tweet) (rest : List Tweet) (t : String)
    (hbuf : st.timeline_tweets = TLBuf.tweets (tw :: rest))
    (hact : it.chosen_action = "post-tweet")
    (hgate : it.now - st.last_tweet_time ≥ a.tweet_interval)
    (hllm : it.llm_result = some t) (ht : t ≠ "") :
    (loopIter a st it).1.last_tweet_time = it.now ∧
    Eff.dispatchPost t ∈ (loopIter a st it).2 ∧
    ∀ r, loopIter a st { it with post_dispatch_result := r } = loopIter a st it := by
  have h1 := loopIter_cons a st it tw rest hbuf
  refine ⟨?_, ?_, ?_⟩
  · rw [h1]
    unfold loopIterAct
    rw [hact, hllm]
    simp [hgate, ht]
  · rw [h1]
    unfold loopIterAct
    rw [hact, hllm]
    simp [hgate, ht]
  · intro r
    rw [loopIter_cons a st _ tw rest hbuf, h1]
    rfl

/-- Witness for C1 (amended) at the counterexample's input. -/
theorem last_tweet_time_updated_regardless_of_dispatch_witness :
    (loopIter wCfg ⟨TLBuf.tweets [wTweet], 0⟩
        (Iter.mk none "post-tweet" 1000 (some "hello") (Rat.divInt 0 1) none)).1.last_tweet_time
      = (Iter.mk none "post-tweet" 1000 (some "hello") (Rat.divInt 0 1) none).now ∧
    Eff.dispatchPost "hello" ∈ (loopIter wCfg ⟨TLBuf.tweets [wTweet], 0⟩
        (Iter.mk none "post-tweet" 1000 (some "hello") (Rat.divInt 0 1) none)).2 ∧
    ∀ r, loopIter wCfg ⟨TLBuf.tweets [wTweet], 0⟩
        { Iter.mk none "post-tweet" 1000 (some "hello") (Rat.divInt 0 1) none with
            post_dispatch_result := r }
      = loopIter wCfg ⟨TLBuf.tweets [wTweet], 0⟩
          (Iter.mk none "post-tweet" 1000 (some "hello") (Rat.divInt 0 1) none) :=
  last_tweet_time_updated_regardless_of_dispatch wCfg ⟨TLBuf.tweets [wTweet], 0⟩
    (Iter.mk none "post-tweet" 1000 (some "hello") (Rat.divInt 0 1) none)
    wTweet [] "hello" rfl rfl (by decide) rfl (by decide)

/-- C2 (counterexample): post selected at time 100 with
`last_tweet_time = 0` and interval 900 — the iteration produces only the
skip log and no end-of-iteration sleep (the `continue` jumps straight to
the next iteration), contradicting the claim that it proceeds to the
sleep. -/
theorem post_gate_skip_cex :
    (loopIter wCfg ⟨TLBuf.tweets [wTweet], 0⟩
        (Iter.mk none "post-tweet" 100 (some "hello") (Rat.divInt 0 1) none)).2
      = [Eff.logSkipPost] ∧
    Eff.sleepDelay ∉ (loopIter wCfg ⟨TLBuf.tweets [wTweet], 0⟩
        (Iter.mk none "post-tweet" 100 (some "hello") (Rat.divInt 0 1) none)).2 := by
  decide

/-- C2 (amended): when the post action is selected before the interval
has elapsed, the iteration skips posting, attempts no other action, and
— because the skip is a `continue` — reaches the next iteration
immediately, without the end-of-iteration sleep. -/
theorem post_gate_skip_no_sleep (a : LoopCfg) (st : LoopState) (it : Iter)
    (tw : Tweet) (rest : List Tweet)
    (hbuf : st.timeline_tweets = TLBuf.tweets (tw :: rest))
    (hact : it.chosen_action = "post-tweet")
    (hgate : it.now - st.last_tweet_time < a.tweet_interval) :
    loopIter a st it = (st, [Eff.logSkipPost]) ∧
    Eff.sleepDelay ∉ (loopIter a st it).2 := by
  have h1 := loopIter_cons a st it tw rest hbuf
  have hng : ¬ (it.now - st.last_tweet_time ≥ a.tweet_interval) := not_le.mpr hgate
  have h2 : loopIter a st it = (st, [Eff.logSkipPost]) := by
    rw [h1]
    unfold loopIterAct
    rw [hact]
    simp [hng]
  exact ⟨h2, by rw [h2]; simp⟩

/-- Witness for C2 (amended) at the counterexample's input. -/
theorem post_gate_skip_no_sleep_witness :
    loopIter wCfg ⟨TLBuf.tweets [wTweet], 0⟩
        (Iter.mk none "post-tweet" 100 (some "hello") (Rat.divInt 0 1) none)
      = (⟨TLBuf.tweets [wTweet], 0⟩, [Eff.logSkipPost]) ∧
    Eff.sleepDelay ∉ (loopIter wCfg ⟨TLBuf.tweets [wTweet], 0⟩
        (Iter.mk none "post-tweet" 100 (some "hello") (Rat.divInt 0 1) none)).2 :=
  post_gate_skip_no_sleep wCfg ⟨TLBuf.tweets [wTweet], 0⟩
    (Iter.mk none "post-tweet" 100 (some "hello") (Rat.divInt 0 1) none)
    wTweet [] rfl rfl (by decide)

/-- C4 (counterexample): with `self_reply_chance = 0` and a uniform draw
of exactly 0 (a value in `[0,1)`), a self-authored item IS replied to —
the gate is `random.random() > self_reply_chance`, so a draw equal to
the chance proceeds. The claim's "never dispatches a reply" is false. -/
theorem self_reply_chance_zero_cex :
    (LoopCfg.mk 900 (Rat.divInt 0 1) "yukina").self_reply_chance = 0 ∧
    (0 : ℚ) ≤ Rat.divInt 0 1 ∧ (Rat.divInt 0 1 : ℚ) < 1 ∧
    Eff.dispatchReply "123" "hey" ∈
      (loopIter (LoopCfg.mk 900 (Rat.divInt 0 1) "yukina") ⟨TLBuf.tweets [wTweet], 0⟩
        (Iter.mk none "reply-to-tweet" 100 (some "hey") (Rat.divInt 0 1) none)).2 := by
  decide

/-- C4 (amended): for a dequeued self-authored item with a usable id and
non-empty generated text, the reply is dispatched exactly when the
uniform draw is ≤ `self_reply_chance`. Hence with chance 1 it is always
dispatched, but with chance 0 it is still dispatched on a draw of
exactly 0 — suppression holds only for strictly positive draws. -/
theorem self_reply_gate_iff (a : LoopCfg) (st : LoopState) (it : Iter)
    (tw : Tweet) (rest : List Tweet) (tid t : String)
    (hbuf : st.timeline_tweets = TLBuf.tweets (tw :: rest))
    (hact : it.chosen_action = "reply-to-tweet")
    (hid : tw.id = some tid) (htid : tid ≠ "")
    (hown : lowerString (tw.author_username.getD "") = a.username)
    (hllm : it.llm_result = some t) (ht : t ≠ "") :
    Eff.dispatchReply tid t ∈ (loopIter a st it).2 ↔
      it.rand_draw ≤ a.self_reply_chance := by
  have h1 := loopIter_cons a st it tw rest hbuf
  rw [h1]
  unfold loopIterAct
  by_cases hdraw : it.rand_draw > a.self_reply_chance
  · simp [hact, hbuf, hid, hllm, hown, hdraw, htid, ht, not_le.mpr hdraw]
  · simp [hact, hbuf, hid, hllm, hown, hdraw, htid, ht, le_of_not_lt hdraw]

/-- Witness for C4 (amended): chance 1/20, draw 1/40 ≤ 1/20, so the
self-reply is dispatched. -/
theorem self_reply_gate_iff_witness :
    Eff.dispatchReply "123" "hey" ∈
      (loopIter wCfg ⟨TLBuf.tweets [wTweet], 0⟩
        (Iter.mk none "reply-to-tweet" 100 (some "hey") (Rat.divInt 1 40) none)).2 ↔
      (Iter.mk none "reply-to-tweet" 100 (some "hey") (Rat.divInt 1 40) none).rand_draw
        ≤ wCfg.self_reply_chance :=
  self_reply_gate_iff wCfg ⟨TLBuf.tweets [wTweet], 0⟩
    (Iter.mk none "reply-to-tweet" 100 (some "hey") (Rat.divInt 1 40) none)
    wTweet [] "123" "hey" rfl rfl rfl (by decide) (by decide) rfl (by decide)

/-- C8: with `tweet_interval = T` and `last_tweet_time = t0`, a post
selection strictly before `t0 + T` performs no post dispatch and no LLM
call, while a post selection at `t0 + T` or later attempts one (the
generation prompt is built and the LLM capability is called). -/
theorem post_gating_threshold (a : LoopCfg) (st : LoopState) (it : Iter)
    (tw : Tweet) (rest : List Tweet)
    (hbuf : st.timeline_tweets = TLBuf.tweets (tw :: rest))
    (hact : it.chosen_action = "post-tweet") :
    (it.now < st.last_tweet_time + a.tweet_interval →
       (∀ t, Eff.dispatchPost t ∉ (loopIter a st it).2) ∧
       Eff.llmGenerate ∉ (loopIter a st it).2) ∧
    (st.last_tweet_time + a.tweet_interval ≤ it.now →
       Eff.llmGenerate ∈ (loopIter a st it).2) := by
  have h1 := loopIter_cons a st it tw rest hbuf
  constructor
  · intro hlt
    have hng : ¬ (it.now - st.last_tweet_time ≥ a.tweet_interval) := by omega
    rw [h1]
    unfold loopIterAct
    simp [hact, hng]
  · intro hge
    have hg : it.now - st.last_tweet_time ≥ a.tweet_interval := by omega
    rw [h1]
    unfold loopIterAct
    rcases hllm : it.llm_result with _ | t
    · simp [hact, hg, hllm]
    · by_cases ht : t = "" <;> simp [hact, hg, hllm, ht]

/-- Witness for C8: `t0 = 0`, `T = 900`; at time 899 no dispatch nor LLM
call; the other direction's hypothesis is vacuous there but the theorem
is applied in full at time 899. -/
theorem post_gating_threshold_witness :
    ((Iter.mk none "post-tweet" 899 (some "hello") (Rat.divInt 0 1) none).now <
        (⟨TLBuf.tweets [wTweet], 0⟩ : LoopState).last_tweet_time + wCfg.tweet_interval →
       (∀ t, Eff.dispatchPost t ∉ (loopIter wCfg ⟨TLBuf.tweets [wTweet], 0⟩
          (Iter.mk none "post-tweet" 899 (some "hello") (Rat.divInt 0 1) none)).2) ∧
       Eff.llmGenerate ∉ (loopIter wCfg ⟨TLBuf.tweets [wTweet], 0⟩
          (Iter.mk none "post-tweet" 899 (some "hello") (Rat.divInt 0 1) none)).2) ∧
    ((⟨TLBuf.tweets [wTweet], 0⟩ : LoopState).last_tweet_time + wCfg.tweet_interval ≤
        (Iter.mk none "post-tweet" 899 (some "hello") (Rat.divInt 0 1) none).now →
       Eff.llmGenerate ∈ (loopIter wCfg ⟨TLBuf.tweets [wTweet], 0⟩
          (Iter.mk none "post-tweet" 899 (some "hello") (Rat.divInt 0 1) none)).2) :=
  post_gating_threshold wCfg ⟨TLBuf.tweets [wTweet], 0⟩
    (Iter.mk none "post-tweet" 899 (some "hello") (Rat.divInt 0 1) none) wTweet [] rfl rfl

/-- C10: when reply or like is selected with a non-empty buffer, the
front item is removed (the new buffer is the tail) before its id is
examined; an item whose id is missing (or falsy) is therefore consumed
with no reply or like dispatched, and — being off the buffer — is never
re-examined. -/
theorem dequeue_before_id_check (a : LoopCfg) (st : LoopState) (it : Iter)
    (tw : Tweet) (rest : List Tweet)
    (hbuf : st.timeline_tweets = TLBuf.tweets (tw :: rest))
    (hact : it.chosen_action = "reply-to-tweet" ∨ it.chosen_action = "like-tweet") :
    (loopIter a st it).1.timeline_tweets = TLBuf.tweets rest ∧
    ((tw.id = none ∨ tw.id = some "") →
      (∀ i s, Eff.dispatchReply i s ∉ (loopIter a st it).2) ∧
      (∀ i, Eff.dispatchLike i ∉ (loopIter a st it).2)) := by
  have h1 := loopIter_cons a st it tw rest hbuf
  rw [h1]
  unfold loopIterAct
  rcases hact with hact | hact
  · constructor
    · rcases hid : tw.id with _ | tid
      · simp [hact, hbuf, hid]
      · by_cases htid : tid = ""
        · simp [hact, hbuf, hid, htid]
        · by_cases hown : lowerString (tw.author_username.getD "") = a.username
              ∧ it.rand_draw > a.self_reply_chance
          · simp [hact, hbuf, hid, htid, hown]
          · rcases hllm : it.llm_result with _ | t
            · simp [hact, hbuf, hid, htid, hown, hllm]
            · by_cases ht : t = "" <;> simp [hact, hbuf, hid, htid, hown, hllm, ht]
    · intro hfalsy
      rcases hfalsy with hid | hid <;> simp [hact, hbuf, hid]
  · constructor
    · rcases hid : tw.id with _ | tid
      · simp [hact, hbuf, hid]
      · by_cases htid : tid = "" <;> simp [hact, hbuf, hid, htid]
    · intro hfalsy
      rcases hfalsy with hid | hid <;> simp [hact, hbuf, hid]

/-- Witness for C10: a like selection on a buffer whose front item has
no id consumes it (buffer becomes the tail) and dispatches nothing. -/
theorem dequeue_before_id_check_witness :
    (loopIter wCfg ⟨TLBuf.tweets [wTweetNoId, wTweet], 0⟩
        (Iter.mk none "like-tweet" 100 none (Rat.divInt 0 1) none)).1.timeline_tweets
      = TLBuf.tweets [wTweet] ∧
    ((wTweetNoId.id = none ∨ wTweetNoId.id = some "") →
      (∀ i s, Eff.dispatchReply i s ∉ (loopIter wCfg ⟨TLBuf.tweets [wTweetNoId, wTweet], 0⟩
          (Iter.mk none "like-tweet" 100 none (Rat.divInt 0 1) none)).2) ∧
      (∀ i, Eff.dispatchLike i ∉ (loopIter wCfg ⟨TLBuf.tweets [wTweetNoId, wTweet], 0⟩
          (Iter.mk none "like-tweet" 100 none (Rat.divInt 0 1) none)).2)) :=
  dequeue_before_id_check wCfg ⟨TLBuf.tweets [wTweetNoId, wTweet], 0⟩
    (Iter.mk none "like-tweet" 100 none (Rat.divInt 0 1) none)
    wTweetNoId [wTweet] rfl (Or.inr rfl)

/-- Every branch of the action phase appends to the incoming effect
prefix. -/
theorem loopIterAct_effs_prefix (a : LoopCfg) (st : LoopState) (it : Iter)
    (effs : List Eff) : ∃ tail, (loopIterAct a st it effs).2 = effs ++ tail := by
  unfold loopIterAct
  repeat' split
  all_goals first
    | exact ⟨_, rfl⟩
    | exact ⟨[], (List.append_nil _).symm⟩

/-- The action phase never repairs a `None` buffer: if the stored value
is `None` it stays `None` (the reply/like guards raise on it, the post
branch does not touch it). -/
theorem loopIterAct_null_buffer (a : LoopCfg) (st : LoopState) (it : Iter)
    (effs : List Eff) (h : st.timeline_tweets = TLBuf.null) :
    (loopIterAct a st it effs).1.timeline_tweets = TLBuf.null := by
  unfold loopIterAct
  repeat' split
  all_goals simp_all

/-- C5 (counterexample): a replenish whose read-timeline dispatch
returns null installs `None`; the same iteration's like branch raises at
`len(None)` and is caught. The NEXT iteration — even though a fresh
read would now succeed — raises again at the replenish emptiness check,
performs no read-timeline call, and leaves the buffer `None`: the
failure is not confined to its iteration and the buffer is never
re-replenished. -/
theorem replenish_null_cex :
    loopIter wCfg ⟨TLBuf.missing, 0⟩
        (Iter.mk none "like-tweet" 100 none (Rat.divInt 0 1) none)
      = (⟨TLBuf.null, 0⟩, [Eff.readTimeline, Eff.logErrorSleep]) ∧
    loopIter wCfg ⟨TLBuf.null, 0⟩
        (Iter.mk (some [wTweet]) "like-tweet" 200 none (Rat.divInt 0 1) none)
      = (⟨TLBuf.null, 0⟩, [Eff.logErrorSleep]) ∧
    Eff.readTimeline ∉ (loopIter wCfg ⟨TLBuf.null, 0⟩
        (Iter.mk (some [wTweet]) "like-tweet" 200 none (Rat.divInt 0 1) none)).2 := by
  decide

/-- C5 (amended): when the replenish step finds the buffer missing or of
zero length it does invoke read-timeline and install the result — but a
null result is installed as `None`, and from then on every iteration
raises at the emptiness check (caught at the boundary, so the loop keeps
running after the standard delay) and never invokes read-timeline
again: the failure is not confined to the failing iteration. -/
theorem replenish_null_poisons (a : LoopCfg) (st : LoopState) (it : Iter)
    (hbuf : st.timeline_tweets = TLBuf.missing ∨ st.timeline_tweets = TLBuf.tweets [])
    (hread : it.read_timeline_result = none) :
    (loopIter a st it).1.timeline_tweets = TLBuf.null ∧
    Eff.readTimeline ∈ (loopIter a st it).2 ∧
    ∀ a' st' it', st'.timeline_tweets = TLBuf.null →
      loopIter a' st' it' = (st', [Eff.logErrorSleep]) ∧
      Eff.readTimeline ∉ (loopIter a' st' it').2 := by
  have hnull : ∀ (a' : LoopCfg) (st' : LoopState) (it' : Iter),
      st'.timeline_tweets = TLBuf.null →
      loopIter a' st' it' = (st', [Eff.logErrorSleep]) := by
    intro a' st' it' h
    unfold loopIter
    rw [h]
  have hst : installBuf it.read_timeline_result = TLBuf.null := by
    rw [hread]
    rfl
  have hmem : ∀ (stx : LoopState),
      Eff.readTimeline ∈ (loopIterAct a stx it [Eff.readTimeline]).2 := by
    intro stx
    obtain ⟨tail, htail⟩ := loopIterAct_effs_prefix a stx it [Eff.readTimeline]
    rw [htail]
    simp
  refine ⟨?_, ?_, fun a' st' it' h =>
    ⟨hnull a' st' it' h, by rw [hnull a' st' it' h]; simp⟩⟩
  · rcases hbuf with h | h
    · unfold loopIter
      rw [h]
      exact loopIterAct_null_buffer a _ it _ (by simp [hst])
    · unfold loopIter
      rw [h]
      simp only [List.isEmpty_nil, if_true]
      exact loopIterAct_null_buffer a _ it _ (by simp [hst])
  · rcases hbuf with h | h
    · unfold loopIter
      rw [h]
      exact hmem _
    · unfold loopIter
      rw [h]
      simp only [List.isEmpty_nil, if_true]
      exact hmem _

/-- Witness for C5 (amended) at the counterexample's first iteration. -/
theorem replenish_null_poisons_witness :
    (loopIter wCfg ⟨TLBuf.missing, 0⟩
        (Iter.mk none "like-tweet" 100 none (Rat.divInt 0 1) none)).1.timeline_tweets
      = TLBuf.null ∧
    Eff.readTimeline ∈ (loopIter wCfg ⟨TLBuf.missing, 0⟩
        (Iter.mk none "like-tweet" 100 none (Rat.divInt 0 1) none)).2 ∧
    ∀ a' st' it', st'.timeline_tweets = TLBuf.null →
      loopIter a' st' it' = (st', [Eff.logErrorSleep]) ∧
      Eff.readTimeline ∉ (loopIter a' st' it').2 :=
  replenish_null_poisons wCfg ⟨TLBuf.missing, 0⟩
    (Iter.mk none "like-tweet" 100 none (Rat.divInt 0 1) none) (Or.inl rfl) rfl

/-! ## Configuration loading (`YukinaAgent.__init__`,
`ConnectionManager.__init__`, `TwitterConnection.validate_config`) -/

/-- `isinstance(v, int) and v > 0` (the test `validate_config` applies to
`timeline_read_count` and `tweet_interval`, negated). -/
def isPosInt : PyVal → Bool
  | .pyInt n => decide (0 < n)
  | _ => false

/-- `isinstance(v, float) and v >= 0` (the test `validate_config`
applies to `self_reply_chance`, negated; a Python `int` is not a
`float`). -/
def isFloatGe0 : PyVal → Bool
  | .pyFloat q => decide (0 ≤ q)
  | _ => false

/-- The fields `TwitterConnection.validate_config` requires. -/
def twitter_required_fields : List String :=
  ["timeline_read_count", "self_reply_chance", "tweet_interval"]

/-- `TwitterConnection.validate_config`: missing-field check, then the
three type/range checks in source order, each raising a `ValueError`
with its specific message. -/
def validate_twitter_config (config : List (String × PyVal)) :
    Except String (List (String × PyVal)) :=
  let missing := twitter_required_fields.filter (fun f => (config.lookup f).isNone)
  if missing ≠ [] then
    .error ("Missing required configuration fields: " ++ String.intercalate ", " missing)
  else if !(isPosInt ((config.lookup "timeline_read_count").getD .pyNone)) then
    .error "timeline_read_count must be a positive integer"
  else if !(isFloatGe0 ((config.lookup "self_reply_chance").getD .pyNone)) then
    .error "self_reply_chance must be 0 or greater"
  else if !(isPosInt ((config.lookup "tweet_interval").getD .pyNone)) then
    .error "tweet_interval must be a positive integer"
  else
    .ok config

/-- Modelled from the spec: `base_connection.py` is not among the
sources; per the spec, type/range violations of the connection config
block are raised "at load time", i.e. constructing a `TwitterConnection`
runs `validate_config` on its block and propagates its error. -/
def twitter_connection_init (config : List (String × PyVal)) :
    Except String (List (String × PyVal)) :=
  validate_twitter_config config

/-- `ConnectionManager._register_connection`: resolve the `name`
discriminant, construct the connection class (running its validation),
and store it under its name; any exception (missing `name` key, unknown
class — `None(config)` raises `TypeError` — or a validation error) is
caught and only logged, leaving the registry without that connection.
The Anthropic/OpenAI constructors are not among this repository's
sources and no claim depends on them; modelled from the spec as
collaborators whose construction succeeds. -/
def register_connection (conns : List (String × List (String × PyVal))) (v : PyVal) :
    List (String × List (String × PyVal)) :=
  match v with
  | .pyDict config_dic =>
    match config_dic.lookup "name" with
    | some (.pyStr "twitter") =>
      match twitter_connection_init config_dic with
      | .ok c => ("twitter", c) :: conns
      | .error _ => conns
    | some (.pyStr n) =>
      if n = "anthropic" ∨ n = "openai" then (n, config_dic) :: conns else conns
    | _ => conns
  | _ => conns

/-- `ConnectionManager.__init__`: register every block of the agent's
`config` list; never raises. -/
def connection_manager_init (agent_config : List PyVal) :
    List (String × List (String × PyVal)) :=
  agent_config.foldl register_connection []

/-- `REQUIRED_FIELDS` of `src/agent.py`. -/
def REQUIRED_FIELDS : List String :=
  ["name", "bio", "traits", "examples", "loop_delay", "config", "tasks"]

/-- `[field for field in REQUIRED_FIELDS if field not in agent_dict]`. -/
def missing_fields (agent_dict : List (String × PyVal)) : List String :=
  REQUIRED_FIELDS.filter (fun f => (agent_dict.lookup f).isNone)

/-- `next((config for config in agent_dict["config"] if config["name"] ==
"twitter"), None)`: scans in order; a block without a `name` key raises
`KeyError` out of the generator, a non-dict block raises `TypeError`. -/
def find_twitter_config : List PyVal → Except String (Option (List (String × PyVal)))
  | [] => .ok none
  | v :: vs =>
    match v with
    | .pyDict c =>
      match c.lookup "name" with
      | none => .error "KeyError: name"
      | some (.pyStr s) => if s = "twitter" then .ok (some c) else find_twitter_config vs
      | some _ => find_twitter_config vs
    | _ => .error "TypeError: connection config block is not a dict"

/-- The constructed agent (`YukinaAgent.__init__`): the raw profile
fields, the connection registry, and the twitter tuning knobs read with
their `.get` defaults (`self_reply_chance` 0.05, `tweet_interval` 900).
The derived `task_weights`, the empty `state` and the prompt cache are
loop-local concerns handled by the loop embedding above. -/
structure YukinaAgent where
  name : PyVal
  bio : PyVal
  traits : PyVal
  examples : PyVal
  loop_delay : PyVal
  connections : List (String × List (String × PyVal))
  self_reply_chance : PyVal
  tweet_interval : PyVal
  tasks : PyVal

/-- `YukinaAgent.__init__` on an already-parsed profile dict: the
missing-required-fields check (raising `KeyError` naming every missing
field), `ConnectionManager(...)` (which never raises), the twitter-block
scan (raising if absent), and the attribute assignments. The outer
`except` logs and re-raises, so every error aborts construction. -/
def agent_init (agent_dict : List (String × PyVal)) : Except String YukinaAgent :=
  if missing_fields agent_dict ≠ [] then
    .error ("Missing required fields: " ++ String.intercalate ", " (missing_fields agent_dict))
  else
    match agent_dict.lookup "config" with
    | some (.pyList config_list) =>
      match find_twitter_config config_list with
      | .error e => .error e
      | .ok none => .error "Twitter configuration is required"
      | .ok (some twitter_config) =>
        .ok { name := (agent_dict.lookup "name").getD .pyNone
              bio := (agent_dict.lookup "bio").getD .pyNone
              traits := (agent_dict.lookup "traits").getD .pyNone
              examples := (agent_dict.lookup "examples").getD .pyNone
              loop_delay := (agent_dict.lookup "loop_delay").getD .pyNone
              connections := connection_manager_init config_list
              self_reply_chance :=
                (twitter_config.lookup "self_reply_chance").getD (.pyFloat (Rat.divInt 1 20))
              tweet_interval :=
                (twitter_config.lookup "tweet_interval").getD (.pyInt 900)
              tasks := (agent_dict.lookup "tasks").getD (.pyList []) }
    | some _ => .error "TypeError: config is not a list of connection blocks"
    | none => .error "KeyError: config"

/-- Does an `Except` computation hold a success value. -/
def isOkE {ε α : Type} : Except ε α → Bool
  | .ok _ => true
  | .error _ => false

/-- C9: a profile missing required top-level fields fails construction
with a message that joins ALL missing field names, and every absent
required field appears in that list. -/
theorem agent_init_names_all_missing_fields (agent_dict : List (String × PyVal))
    (f : String) (hf : f ∈ REQUIRED_FIELDS)
    (hmiss : (agent_dict.lookup f).isNone = true) :
    agent_init agent_dict
      = .error ("Missing required fields: "
          ++ String.intercalate ", " (missing_fields agent_dict)) ∧
    ∀ g ∈ REQUIRED_FIELDS, (agent_dict.lookup g).isNone = true →
      g ∈ missing_fields agent_dict := by
  have hne : missing_fields agent_dict ≠ [] := by
    intro h0
    have hmem : f ∈ missing_fields agent_dict := List.mem_filter.mpr ⟨hf, hmiss⟩
    rw [h0] at hmem
    exact absurd hmem (List.not_mem_nil f)
  refine ⟨?_, fun g hg hgm => List.mem_filter.mpr ⟨hg, hgm⟩⟩
  unfold agent_init
  rw [if_pos hne]

/-- A concrete profile dict missing `bio` and `tasks`. -/
def c9Dict : List (String × PyVal) :=
  [("name", .pyStr "Yukina"), ("traits", .pyList []), ("examples", .pyList []),
   ("loop_delay", .pyInt 30), ("config", .pyList [])]

/-- Witness for C9: the profile missing `bio` and `tasks` fails with the
joined message, and both missing fields are in the enumerated list. -/
theorem agent_init_names_all_missing_fields_witness :
    agent_init c9Dict
      = .error ("Missing required fields: "
          ++ String.intercalate ", " (missing_fields c9Dict)) ∧
    ∀ g ∈ REQUIRED_FIELDS, (c9Dict.lookup g).isNone = true →
      g ∈ missing_fields c9Dict :=
  agent_init_names_all_missing_fields c9Dict "bio" (by decide) (by decide)

/-- The twitter connection block with the three validated fields. -/
def twitterBlock (v1 v2 v3 : PyVal) : List (String × PyVal) :=
  [("name", .pyStr "twitter"), ("timeline_read_count", v1),
   ("self_reply_chance", v2), ("tweet_interval", v3)]

/-- The first failing check's message, in `validate_config` order. -/
def violationMsg (v1 v2 v3 : PyVal) : String :=
  if !(isPosInt v1) then "timeline_read_count must be a positive integer"
  else if !(isFloatGe0 v2) then "self_reply_chance must be 0 or greater"
  else "tweet_interval must be a positive integer"

/-- A full profile dict around a given twitter block. -/
def c3Dict (block : List (String × PyVal)) : List (String × PyVal) :=
  [("name", .pyStr "Yukina"), ("bio", .pyList []), ("traits", .pyList []),
   ("examples", .pyList []), ("loop_delay", .pyInt 30),
   ("config", .pyList [.pyDict block]), ("tasks", .pyList [])]

/-- C3 (counterexample): a profile whose twitter block has
`tweet_interval = "900"` (a string, not a positive integer) triggers the
specific `validate_config` message, yet agent construction SUCCEEDS — an
agent is produced whose registry merely lacks the twitter connection —
contradicting the claim that construction aborts fatally with no partial
agent. -/
theorem invalid_twitter_config_not_fatal_cex :
    validate_twitter_config
        (twitterBlock (PyVal.pyInt 10) (PyVal.pyFloat (Rat.divInt 1 20)) (PyVal.pyStr "900"))
      = .error "tweet_interval must be a positive integer" ∧
    isOkE (agent_init (c3Dict
        (twitterBlock (PyVal.pyInt 10) (PyVal.pyFloat (Rat.divInt 1 20)) (PyVal.pyStr "900"))))
      = true ∧
    connection_manager_init
        [.pyDict (twitterBlock (PyVal.pyInt 10) (PyVal.pyFloat (Rat.divInt 1 20))
          (PyVal.pyStr "900"))]
      = [] :=
  ⟨rfl, rfl, rfl⟩

/-- C3 (amended): a twitter block violating any of the three type/range
checks makes `validate_config` raise the specific message naming the
(first) violated field, but `_register_connection` catches and only logs
it: agent construction still completes, producing an agent whose
connection registry has no twitter entry. -/
theorem invalid_twitter_config_not_fatal (v1 v2 v3 : PyVal)
    (hviol : isPosInt v1 = false ∨ isFloatGe0 v2 = false ∨ isPosInt v3 = false) :
    validate_twitter_config (twitterBlock v1 v2 v3)
      = .error (violationMsg v1 v2 v3) ∧
    connection_manager_init [.pyDict (twitterBlock v1 v2 v3)] = [] ∧
    ∃ ag, agent_init (c3Dict (twitterBlock v1 v2 v3)) = .ok ag ∧ ag.connections = [] := by
  have hval : validate_twitter_config (twitterBlock v1 v2 v3)
      = .error (violationMsg v1 v2 v3) := by
    unfold validate_twitter_config violationMsg twitterBlock twitter_required_fields
    cases hb1 : isPosInt v1 <;> cases hb2 : isFloatGe0 v2 <;> cases hb3 : isPosInt v3 <;>
      simp_all [List.lookup]
  have hreg : connection_manager_init [.pyDict (twitterBlock v1 v2 v3)] = [] := by
    have hname : (twitterBlock v1 v2 v3).lookup "name" = some (PyVal.pyStr "twitter") := rfl
    unfold connection_manager_init
    simp [register_connection, hname, twitter_connection_init, hval]
  refine ⟨hval, hreg, ?_⟩
  have hmf : missing_fields (c3Dict (twitterBlock v1 v2 v3)) = [] := rfl
  have hcfg : (c3Dict (twitterBlock v1 v2 v3)).lookup "config"
      = some (PyVal.pyList [.pyDict (twitterBlock v1 v2 v3)]) := rfl
  have hfind : find_twitter_config [.pyDict (twitterBlock v1 v2 v3)]
      = .ok (some (twitterBlock v1 v2 v3)) := rfl
  unfold agent_init
  rw [hmf]
  simp only [ne_eq, not_true_eq_false, if_false, hcfg, hfind]
  exact ⟨_, rfl, hreg⟩

/-- Witness for C3 (amended) at the counterexample's block. -/
theorem invalid_twitter_config_not_fatal_witness :
    validate_twitter_config
        (twitterBlock (PyVal.pyInt 10) (PyVal.pyFloat (Rat.divInt 1 20)) (PyVal.pyStr "900"))
      = .error (violationMsg (PyVal.pyInt 10) (PyVal.pyFloat (Rat.divInt 1 20))
          (PyVal.pyStr "900")) ∧
    connection_manager_init
        [.pyDict (twitterBlock (PyVal.pyInt 10) (PyVal.pyFloat (Rat.divInt 1 20))
          (PyVal.pyStr "900"))] = [] ∧
    ∃ ag, agent_init (c3Dict (twitterBlock (PyVal.pyInt 10)
        (PyVal.pyFloat (Rat.divInt 1 20)) (PyVal.pyStr "900"))) = .ok ag ∧
      ag.connections = [] :=
  invalid_twitter_config_not_fatal (PyVal.pyInt 10) (PyVal.pyFloat (Rat.divInt 1 20))
    (PyVal.pyStr "900") (Or.inr (Or.inr (by decide)))

end Yukina
